import Mathlib

/-!
Shallow embedding of the kframe `animation` A-Frame component
(src/components/animation/index.js) and proofs about its documented
behaviour.

The component is thin glue between the A-Frame component lifecycle and the
anime.js tweening engine.  We embed:

* a small model of the JavaScript values the adapter code manipulates
  (strings, numbers with a NaN marker, booleans, undefined), together with
  the coercions the source relies on (`||`, truthiness, `isNaN`/ToNumber,
  `parseFloat`, `toString`, `===`, `>=`);
* the property-adapter config builders `updateConfigForDefault` and
  `updateConfigForVector` plus the per-update write-back closures they
  install;
* the lifecycle state machine of one component instance (`init`, `update`,
  `tick`, `remove`, scene-level `pause`/`play`, the event-bound
  begin/pause/resume handlers) and the entity-level sibling scan
  `stopRelatedAnimations` performed by `beginAnimation`.

Numbers are modelled as exact rationals (the source only adds, compares
and parses decimal literals in the paths modelled here); the NaN produced
by a failed parse is a distinct constructor, and `NaN === NaN` is false as
in JavaScript.  The degrees→radians conversion is embedded generically
over a field with a distinguished element standing for `Math.PI`, so the
model stays executable while the theorems instantiate it at `ℝ` with
`Real.pi`.
-/

namespace KframeAnim

/-- A finite JavaScript number in exact decimal form: the value
`mant / 10 ^ exp`.  All arithmetic on this representation is structural
Nat/Int arithmetic; `Dec.toRat` gives its rational value. -/
structure Dec : Type where
  mant : Int
  exp : Nat
  deriving DecidableEq, Repr

/-- The rational value of a decimal. -/
def Dec.toRat (d : Dec) : ℚ := (d.mant : ℚ) / (10 : ℚ) ^ d.exp

/-- Value equality of two decimals (cross-multiplied): this is JS `===`
on the numbers they denote. -/
def Dec.sameVal (a b : Dec) : Bool :=
  decide (a.mant * (10 : Int) ^ b.exp = b.mant * (10 : Int) ^ a.exp)

/-- Whether the decimal's value is at least one (JS `value >= 1`). -/
def Dec.geOne (d : Dec) : Bool := decide ((10 : Int) ^ d.exp ≤ d.mant)

/-- The integer decimal `n / 10 ^ 0`. -/
def Dec.ofInt (n : Int) : Dec := { mant := n, exp := 0 }

/-- Model of the JavaScript values flowing through the adapter: strings,
finite numbers (as exact decimals), the NaN marker, booleans and
`undefined`. -/
inductive JSVal : Type where
  | str (s : String)
  | num (d : Dec)
  | nan
  | boolV (b : Bool)
  | undef
  deriving DecidableEq, Repr

/-- JavaScript truthiness: empty string, 0, NaN, false and undefined are
falsy. -/
def truthy : JSVal → Bool
  | .str s => s ≠ ""
  | .num d => d.mant ≠ 0
  | .nan => false
  | .boolV b => b
  | .undef => false

/-- JavaScript `a || b`: returns `a` when truthy, otherwise `b`. -/
def jsOr (a b : JSVal) : JSVal := if truthy a then a else b

/-- JavaScript string conversion.  Number rendering is simplified (the
source never stringifies a truthy number in the default route: a truthy
number always passes the `!isNaN` test and takes the numeric branch). -/
def jsStringOf : JSVal → String
  | .str s => s
  | .num d => toString d.mant
  | .nan => "NaN"
  | .boolV b => if b then "true" else "false"
  | .undef => "undefined"

/-- Longest prefix of decimal digits of a character list, with the rest. -/
def takeDigits : List Char → List Char × List Char
  | [] => ([], [])
  | c :: cs =>
    if c.isDigit then
      let p := takeDigits cs
      (c :: p.1, p.2)
    else ([], c :: cs)

/-- Value of a digit list read in base 10. -/
def digitsToNat (ds : List Char) : Nat :=
  ds.foldl (fun acc c => acc * 10 + (c.toNat - 48)) 0

/-- Parse a leading decimal literal `[+-]digits[.digits]` (also `.digits`),
returning its value and the unconsumed rest; `none` when no digit is
present.  Exponents/hex/Infinity are not modelled (never exercised by the
component's documented inputs). -/
def parseNumber (cs : List Char) : Option (Dec × List Char) :=
  let sgn : Bool × List Char :=
    match cs with
    | '-' :: rest => (true, rest)
    | '+' :: rest => (false, rest)
    | _ => (false, cs)
  let ip := takeDigits sgn.2
  let fp : List Char × List Char :=
    match ip.2 with
    | '.' :: r => takeDigits r
    | _ => ([], ip.2)
  if ip.1.isEmpty && fp.1.isEmpty then none
  else
    let mag : Int := Int.ofNat (digitsToNat ip.1 * 10 ^ fp.1.length + digitsToNat fp.1)
    some ({ mant := if sgn.1 then -mag else mag, exp := fp.1.length }, fp.2)

/-- Whitespace for the purposes of JS string trimming (common cases). -/
def isSpaceChar (c : Char) : Bool :=
  c = ' ' || c = '\t' || c = '\n' || c = '\r'

/-- Strip leading and trailing whitespace from a character list. -/
def trimChars (cs : List Char) : List Char :=
  ((cs.dropWhile isSpaceChar).reverse.dropWhile isSpaceChar).reverse

/-- JavaScript ToNumber on a string (`Number(s)`): trimmed empty string is
0, otherwise the whole trimmed string must be a decimal literal; `none`
models NaN. -/
def toNumberStr (s : String) : Option Dec :=
  let t := trimChars s.data
  if t.isEmpty then some (Dec.ofInt 0)
  else
    match parseNumber t with
    | some (d, []) => some d
    | _ => none

/-- JavaScript ToNumber, as used by `isNaN`; `none` models NaN. -/
def toNumber : JSVal → Option Dec
  | .str s => toNumberStr s
  | .num d => some d
  | .nan => none
  | .boolV b => some (Dec.ofInt (if b then 1 else 0))
  | .undef => none

/-- JavaScript `parseFloat`: stringify, then parse the longest numeric
prefix; NaN when no digit leads. -/
def jsParseFloat : JSVal → JSVal
  | .num d => .num d
  | v =>
    match parseNumber (trimChars (jsStringOf v).data) with
    | some (d, _) => .num d
    | none => .nan

/-- JavaScript strict equality `===`: NaN compares unequal to everything,
itself included; numbers compare by value; different types compare
unequal. -/
def jsStrictEq : JSVal → JSVal → Bool
  | .nan, _ => false
  | _, .nan => false
  | .num a, .num b => Dec.sameVal a b
  | .str a, .str b => a == b
  | .boolV a, .boolV b => a == b
  | .undef, .undef => true
  | _, _ => false

/-- JavaScript `value >= 1` for the values the update callback sees (the
right operand being a number, both sides are coerced via ToNumber; NaN
comparisons are false). -/
def jsGeOne (v : JSVal) : Bool :=
  match toNumber v with
  | some d => d.geOne
  | none => false

/-- Endpoints and boolean flag installed by `updateConfigForDefault`:
`fromEnd` is `this.targets.aframeProperty`, `toEnd` is
`config.aframeProperty`. -/
structure DefaultConfigResult : Type where
  fromEnd : JSVal
  toEnd : JSVal
  isBoolean : Bool
  deriving DecidableEq, Repr

/-- Embedding of `updateConfigForDefault` (lines 259–318).  `dataFrom` and
`dataTo` are the `from`/`to` strings of the schema data; `sampled` is the
value returned by the live read (`getRawProperty`/`getComponentProperty`),
taken as a parameter since the accessor belongs to the host framework. -/
def updateConfigForDefault (dataFrom dataTo : String) (sampled : JSVal) :
    DefaultConfigResult :=
  let from0 : JSVal := jsOr (.str dataFrom) sampled
  let to0 : JSVal := .str dataTo
  let isNumber : Bool := (toNumber (jsOr from0 to0)).isSome
  let from1 : JSVal :=
    if isNumber then jsParseFloat from0
    else if truthy from0 then .str (jsStringOf from0) else from0
  let to1 : JSVal :=
    if isNumber then jsParseFloat to0
    else if truthy to0 then .str (jsStringOf to0) else to0
  let isBoolean : Bool := to1 == JSVal.str "true" || to1 == JSVal.str "false"
  let from2 : JSVal :=
    if isBoolean then .num (Dec.ofInt (if dataFrom = "true" then 1 else 0)) else from1
  let to2 : JSVal :=
    if isBoolean then .num (Dec.ofInt (if dataTo = "true" then 1 else 0)) else to1
  { fromEnd := from2, toEnd := to2, isBoolean := isBoolean }

/-- One invocation of the update callback installed by
`updateConfigForDefault` (lines 295–317): given the captured `lastValue`
and the freshly interpolated `value`, returns the value written to the
scene graph (`none` when the write is skipped) and the new `lastValue`. -/
def defaultUpdateStep (isBoolean : Bool) (lastValue value : JSVal) :
    Option JSVal × JSVal :=
  if jsStrictEq value lastValue then (none, lastValue)
  else
    let v := if isBoolean then JSVal.boolV (jsGeOne value) else value
    (some v, value)

/-- A 3-component vector, generic over the scalar type so that the model
stays executable while the rotation theorems instantiate it at `ℝ`. -/
structure Vec3 (α : Type) : Type where
  x : α
  y : α
  z : α
  deriving DecidableEq, Repr

/-- `THREE.Math.degToRad` (line 491 uses it componentwise): multiply by
`π / 180`, with `piV` the distinguished element standing for `Math.PI`. -/
def degToRad {α : Type} [Field α] (piV : α) (d : α) : α := d * piV / 180

/-- Embedding of `toRadians` (lines 490–494): convert each component of a
vector from degrees to radians in place. -/
def toRadians {α : Type} [Field α] (piV : α) (v : Vec3 α) : Vec3 α :=
  { x := degToRad piV v.x, y := degToRad piV v.y, z := degToRad piV v.z }

/-- Endpoints installed by `updateConfigForVector` and which updater was
chosen: `objectWrite` is true when the optimized `object3D` transform
updater (lines 351–372) is installed rather than the generic
`setComponentProperty` one. -/
structure VectorConfigResult (α : Type) : Type where
  fromEnd : Vec3 α
  toEnd : Vec3 α
  objectWrite : Bool
  deriving DecidableEq, Repr

/-- Embedding of `updateConfigForVector` (lines 324–393).  `dataFrom` is
the parsed `data.from` coordinate when that string is non-empty (the
coordinate parser is a host utility, so parsing happens outside the
model); `sampled` is the live `getComponentProperty` read used when
`data.from` is empty; `parsedTo` is the parsed `data.to`. -/
def updateConfigForVector {α : Type} [Field α] (piV : α) (property : String)
    (dataFrom : Option (Vec3 α)) (sampled parsedTo : Vec3 α) :
    VectorConfigResult α :=
  let fromV : Vec3 α :=
    match dataFrom with
    | some v => v
    | none => sampled
  let toV : Vec3 α := parsedTo
  let fromV2 : Vec3 α := if property = "rotation" then toRadians piV fromV else fromV
  let toV2 : Vec3 α := if property = "rotation" then toRadians piV toV else toV
  { fromEnd := fromV2, toEnd := toV2,
    objectWrite :=
      property = "position" || property = "rotation" || property = "scale" }

/-- One invocation of the update callback installed by
`updateConfigForVector` for object3D transforms (lines 353–370): skip when
the interpolated value equals the captured last value, otherwise write the
value unchanged into the transform node via `.set` and remember it. -/
def vectorUpdateStep {α : Type} [DecidableEq α] (lastValue value : Vec3 α) :
    Option (Vec3 α) × Vec3 α :=
  if value = lastValue then (none, lastValue) else (some value, value)

/-! ## Lifecycle state machine -/

/-- The `loop` schema value: literal "true"/"false" parse to a boolean,
anything else to an integer (lines 56–64). -/
inductive LoopVal : Type where
  | boolLoop (b : Bool)
  | intLoop (n : Int)
  deriving DecidableEq, Repr

/-- The component's schema data (lines 48–72).  `fromVal`, `toVal` and
`type'` stand for the source fields `from`, `to` and `type`, which are
reserved words in Lean. -/
structure AnimData : Type where
  autoplay : Bool
  delay : Nat
  dir : String
  dur : Nat
  easing : String
  elasticity : Nat
  fromVal : String
  loop : LoopVal
  property : String
  startEvents : List String
  pauseEvents : List String
  resumeEvents : List String
  toVal : String
  type' : String
  isRawProperty : Bool
  deriving DecidableEq, Repr

/-- Schema defaults (lines 48–72). -/
def schemaDefaults : AnimData :=
  { autoplay := true, delay := 0, dir := "", dur := 1000,
    easing := "easeInQuad", elasticity := 400, fromVal := "",
    loop := .intLoop 0, property := "", startEvents := [],
    pauseEvents := [], resumeEvents := [], toVal := "", type' := "",
    isRawProperty := false }

/-- The base fields `update` copies from the data into `this.config`
(lines 110–116); the targets/endpoints part of the config is modelled by
the adapter layer above. -/
structure BaseConfig : Type where
  autoplay : Bool
  direction : String
  duration : Nat
  easing : String
  elasticity : Nat
  loop : LoopVal
  deriving DecidableEq, Repr

/-- Model of an anime.js instance: the config snapshot it was created from
and the absolute time it was last driven to (by `seek` or `tick`). -/
structure Anime : Type where
  cfg : Option BaseConfig
  currentTime : Nat
  deriving DecidableEq, Repr

/-- Mutable per-instance state: `this.time`, `this.animation`,
`this.animationIsPlaying`, `this.paused`, `this.pausedWasPlaying`,
`this.config`'s base fields, and whether the start/pause/resume listeners
are currently attached. -/
structure AnimState : Type where
  time : Nat
  animation : Option Anime
  animationIsPlaying : Bool
  paused : Bool
  pausedWasPlaying : Bool
  config : Option BaseConfig
  listenersAttached : Bool
  deriving DecidableEq, Repr

/-- One animation component instance on an entity: its attribute name
(e.g. `animation__mouseenter`, used as `eventDetail.name` and as the key
for the sibling scan), its registered component name (`"animation"` for
instances of this component; the entity may also hold other components),
its schema data and its runtime state. -/
structure Component : Type where
  attrName : String
  compName : String
  data : AnimData
  st : AnimState
  deriving DecidableEq, Repr

/-- Externally visible effects of an operation: an event emitted on the
entity (with the `eventDetail.name` payload), or a one-shot
`setTimeout(this.beginAnimation, delay)` being armed. -/
inductive Action : Type where
  | emit (evtName : String) (detailName : String)
  | armTimeout (delayMs : Nat)
  deriving DecidableEq, Repr

/-- `init` (lines 76–100): zero time, no animation handle, not playing;
`paused`/`pausedWasPlaying` are JS `undefined` (falsy) at this point. -/
def initState : AnimState :=
  { time := 0, animation := none, animationIsPlaying := false,
    paused := false, pausedWasPlaying := false, config := none,
    listenersAttached := false }

/-- A freshly initialised component instance. -/
def initComponent (attrName compName : String) (d : AnimData) : Component :=
  { attrName := attrName, compName := compName, data := d, st := initState }

/-- `pauseAnimation` (lines 192–194): clear the running flag, nothing
else. -/
def pauseAnimation (c : Component) : Component :=
  { c with st := { c.st with animationIsPlaying := false } }

/-- `resumeAnimation` (lines 196–198): set the running flag, nothing
else. -/
def resumeAnimation (c : Component) : Component :=
  { c with st := { c.st with animationIsPlaying := true } }

/-- `beginAnimation` (lines 183–190), single-instance part: rebuild the
config (`updateConfig`, whose endpoint/closure effects are the adapter
layer above and do not touch the fields tracked here), zero `this.time`,
seek the animation to 0, set the running flag and emit `animationbegin`
with the attribute name.  When `this.animation` is null the
`this.animation.seek(0)` call throws after `this.time` was already
zeroed; the throw is modelled as `Except.error` carrying the state at the
throw point.  The sibling scan it also performs is modelled at entity
level by `beginOnEntity`. -/
def beginAnimation (c : Component) : Except Component (Component × List Action) :=
  let st0 := { c.st with time := 0 }
  match st0.animation with
  | none => .error { c with st := st0 }
  | some a =>
    .ok ({ c with st :=
            { st0 with animation := some { a with currentTime := 0 },
                       animationIsPlaying := true } },
         [.emit "animationbegin" c.attrName])

/-- The base config `update` assembles from the data (lines 110–116). -/
def baseConfigOf (d : AnimData) : BaseConfig :=
  { autoplay := false, direction := d.dir, duration := d.dur,
    easing := d.easing, elasticity := d.elasticity, loop := d.loop }

/-- `createAndStartAnimation` (lines 156–177): rebuild the config, clear
the running flag, create a fresh anime.js instance, re-attach listeners;
then stay idle when autoplay is off or start events are declared, arm a
one-shot timeout when a delay is configured, and otherwise begin
immediately. -/
def createAndStartAnimation (c : Component) : Component × List Action :=
  let st1 := { c.st with animationIsPlaying := false }
  let st2 := { st1 with
                 animation := some { cfg := st1.config, currentTime := 0 },
                 listenersAttached := true }
  let c2 : Component := { c with st := st2 }
  if !c2.data.autoplay || c2.data.startEvents.length != 0 then (c2, [])
  else if c2.data.delay != 0 then (c2, [.armTimeout c2.data.delay])
  else
    match beginAnimation c2 with
    | .ok r => r
    | .error e => (e, [])

/-- `update` (lines 102–120) with the freshly parsed data already stored
on the component (the host writes `this.data` before calling `update`):
clear the running flag, return early when `property` is empty, otherwise
copy the base config fields and call `createAndStartAnimation`. -/
def update (c : Component) (newData : AnimData) : Component × List Action :=
  let c1 : Component := { c with data := newData }
  let st1 := { c1.st with animationIsPlaying := false }
  if newData.property = "" then ({ c1 with st := st1 }, [])
  else
    createAndStartAnimation
      { c1 with st := { st1 with config := some (baseConfigOf newData) } }

/-- `tick` (lines 122–126): no-op unless the running flag is set;
otherwise accumulate `dt` into `this.time` and drive the animation there.
`this.animation.tick` on a null handle throws after `this.time` was
already incremented. -/
def tick (c : Component) (dt : Nat) : Except Component Component :=
  if !c.st.animationIsPlaying then .ok c
  else
    let st1 := { c.st with time := c.st.time + dt }
    match st1.animation with
    | none => .error { c with st := st1 }
    | some a =>
      .ok { c with st := { st1 with animation := some { a with currentTime := st1.time } } }

/-- `remove` (lines 128–131): `pauseAnimation` then detach listeners. -/
def remove (c : Component) : Component :=
  let c1 := pauseAnimation c
  { c1 with st := { c1.st with listenersAttached := false } }

/-- Scene-level `pause` (lines 133–138).  Note the source sets
`pausedWasPlaying` to `true` unconditionally rather than recording
`this.animationIsPlaying`. -/
def scenePause (c : Component) : Component :=
  let c1 : Component :=
    { c with st := { c.st with paused := true, pausedWasPlaying := true } }
  let c2 := pauseAnimation c1
  { c2 with st := { c2.st with listenersAttached := false } }

/-- Scene-level `play` (lines 143–151): only meaningful after a scene
pause; re-attach listeners and, when `pausedWasPlaying` is set, resume and
clear it. -/
def scenePlay (c : Component) : Component :=
  if !c.st.paused then c
  else
    let c1 : Component :=
      { c with st := { c.st with paused := false, listenersAttached := true } }
    if c1.st.pausedWasPlaying then
      let c2 := resumeAnimation c1
      { c2 with st := { c2.st with pausedWasPlaying := false } }
    else c1

/-- `onStartEvent` (lines 203–210): with a configured delay, arm the
one-shot timeout; otherwise begin immediately. -/
def onStartEvent (c : Component) : Except Component (Component × List Action) :=
  if c.data.delay != 0 then .ok (c, [.armTimeout c.data.delay])
  else beginAnimation c

/-- The lifecycle operations a single instance can undergo, per the
component API and its event wiring.  The three event ops model one of the
configured start/pause/resume events firing on the entity; their handlers
run only while the corresponding listeners are attached and at least one
such event name is configured. -/
inductive LifecycleOp : Type where
  | updateOp (d : AnimData)
  | tickOp (dt : Nat)
  | removeOp
  | scenePauseOp
  | scenePlayOp
  | startEvt
  | pauseEvt
  | resumeEvt
  deriving DecidableEq, Repr

/-- Apply one lifecycle operation; `Except.error` models an uncaught
throw (null-handle dereference), carrying the state at the throw point.
Emitted actions are not needed by the reachability claims and are
dropped here. -/
def applyOp (c : Component) : LifecycleOp → Except Component Component
  | .updateOp d => .ok (update c d).1
  | .tickOp dt => tick c dt
  | .removeOp => .ok (remove c)
  | .scenePauseOp => .ok (scenePause c)
  | .scenePlayOp => .ok (scenePlay c)
  | .startEvt =>
    if c.st.listenersAttached && c.data.startEvents.length != 0 then
      (onStartEvent c).map (·.1)
    else .ok c
  | .pauseEvt =>
    if c.st.listenersAttached && c.data.pauseEvents.length != 0 then
      .ok (pauseAnimation c)
    else .ok c
  | .resumeEvt =>
    if c.st.listenersAttached && c.data.resumeEvents.length != 0 then
      .ok (resumeAnimation c)
    else .ok c

/-- Run a list of lifecycle operations from a component state, stopping at
the first throw. -/
def runOps (c : Component) : List LifecycleOp → Except Component Component
  | [] => .ok c
  | op :: ops =>
    match applyOp c op with
    | .error e => .error e
    | .ok c1 => runOps c1 ops

/-! ## Entity-level begin: `stopRelatedAnimations` (lines 417–427)

`beginAnimation` runs `stopRelatedAnimations`, which walks all components
of the owning entity and, for every component other than the beginning one
(keyed by attribute name) whose registered name is `animation` and whose
declared `property` equals the beginning instance's, clears its running
flag — touching nothing else, in particular leaving its listeners
attached. -/

/-- Effect of one `beginAnimation` call on one component of the entity:
the beginning instance itself (matched by attribute name) gets the
single-instance begin treatment (failing when its handle is null), a
sibling animation instance with the same declared property is marked not
running, and every other component is untouched. -/
def beginStep (selfAttr selfProp : String) (c : Component) : Option Component :=
  if c.attrName = selfAttr then
    match c.st.animation with
    | none => none
    | some a =>
      some { c with st :=
              { c.st with time := 0,
                          animation := some { a with currentTime := 0 },
                          animationIsPlaying := true } }
  else if c.compName ≠ "animation" then some c
  else if c.data.property ≠ selfProp then some c
  else some { c with st := { c.st with animationIsPlaying := false } }

/-- `beginAnimation`'s combined effect on all components of the entity. -/
def beginList (selfAttr selfProp : String) : List Component → Option (List Component)
  | [] => some []
  | c :: rest =>
    match beginStep selfAttr selfProp c, beginList selfAttr selfProp rest with
    | some c1, some rest1 => some (c1 :: rest1)
    | _, _ => none

/-- Entity-level `beginAnimation` invoked on the instance `self`: update
every component of the entity per `beginStep` and emit `animationbegin`
carrying `self`'s attribute name (its `eventDetail.name`). -/
def beginOnEntity (self : Component) (comps : List Component) :
    Option (List Component × List Action) :=
  (beginList self.attrName self.data.property comps).map
    (fun l => (l, [.emit "animationbegin" self.attrName]))

/-! ## Semantics lemmas -/

/-- `Dec.geOne` decides exactly whether the decimal's rational value is at
least one, i.e. it is the JS comparison `value >= 1`. -/
theorem Dec.geOne_iff (d : Dec) : d.geOne = true ↔ 1 ≤ d.toRat := by
  rw [Dec.geOne, Dec.toRat, decide_eq_true_eq, one_le_div (by positivity)]
  constructor
  · intro h
    exact_mod_cast h
  · intro h
    exact_mod_cast h

/-! ## C6: boolean coercion in the default route -/

/-- Claim C6 counterexample: for the configuration `from: 5; to: true` the `to`
value is the literal text "true", yet the endpoints are not coerced to
0/1: the numeric test on `from || to` sees the numeric `from`, so both
endpoints go through `parseFloat`, `parseFloat("true")` is NaN, and the
boolean flag stays off. -/
theorem animBoolCoercionCounterexample :
    (updateConfigForDefault "5" "true" JSVal.undef).toEnd = JSVal.nan ∧
    (updateConfigForDefault "5" "true" JSVal.undef).toEnd ≠ JSVal.num (Dec.ofInt 1) ∧
    (updateConfigForDefault "5" "true" JSVal.undef).isBoolean = false := by
  decide

/-- Claim C6 (amended): when `to` is the literal text "true" or "false" and the
effective from value (`data.from || sampled`, falling back to the `to`
string when falsy) fails the JS numeric test, `updateConfigForDefault`
coerces both endpoints to 1 (for the literal "true" on that side) or 0
(otherwise) and sets the boolean flag; the installed update callback then
writes back `true` exactly when the interpolated value is >= 1. -/
theorem animBoolCoercion (dataFrom dataTo : String) (sampled : JSVal)
    (hTo : dataTo = "true" ∨ dataTo = "false")
    (hNum : toNumber (jsOr (jsOr (JSVal.str dataFrom) sampled) (JSVal.str dataTo)) = none) :
    updateConfigForDefault dataFrom dataTo sampled =
      { fromEnd := .num (Dec.ofInt (if dataFrom = "true" then 1 else 0)),
        toEnd := .num (Dec.ofInt (if dataTo = "true" then 1 else 0)),
        isBoolean := true } ∧
    (∀ lastValue d, jsStrictEq (JSVal.num d) lastValue = false →
        (defaultUpdateStep true lastValue (JSVal.num d)).1 =
          some (.boolV d.geOne) ∧ (d.geOne = true ↔ 1 ≤ d.toRat)) := by
  constructor
  · rcases hTo with rfl | rfl <;>
      (simp only [updateConfigForDefault]; rw [hNum]; simp [truthy, jsStringOf])
  · intro lastValue d h
    refine ⟨?_, Dec.geOne_iff d⟩
    simp [defaultUpdateStep, h, jsGeOne, toNumber]

/-- Claim C6 witness: `from: (sampled boolean false); to: true` coerces the
endpoints to 0 and 1, and write-back maps 1 to `true` and 0 to `false`. -/
theorem animBoolCoercionWitness :
    updateConfigForDefault "" "true" (JSVal.boolV false) =
      { fromEnd := .num (Dec.ofInt 0), toEnd := .num (Dec.ofInt 1),
        isBoolean := true } ∧
    (defaultUpdateStep true (JSVal.num (Dec.ofInt 0)) (JSVal.num (Dec.ofInt 1))).1 =
      some (JSVal.boolV true) ∧
    (defaultUpdateStep true (JSVal.num (Dec.ofInt 1)) (JSVal.num (Dec.ofInt 0))).1 =
      some (JSVal.boolV false) := by
  have h := animBoolCoercion "" "true" (JSVal.boolV false) (Or.inl rfl) (by decide)
  refine ⟨?_, ?_, ?_⟩
  · simpa using h.1
  · have h2 := (h.2 (JSVal.num (Dec.ofInt 0)) (Dec.ofInt 1) (by decide)).1
    simpa [Dec.geOne, Dec.ofInt] using h2
  · have h3 := (h.2 (JSVal.num (Dec.ofInt 1)) (Dec.ofInt 0) (by decide)).1
    simpa [Dec.geOne, Dec.ofInt] using h3

/-! ## C8: numeric parse and string fallback in the default route -/

/-- Claim C8 counterexample: for `from: 5; to: abc` the `to` endpoint is
non-numeric, yet the endpoints are not installed as strings: the numeric
test only sees `from || to` (here the numeric "5"), so both endpoints are
`parseFloat`'d and the installed `to` endpoint is the NaN of the failed
parse. -/
theorem animStringFallbackCounterexample :
    (updateConfigForDefault "5" "abc" JSVal.undef).fromEnd = JSVal.num ⟨5, 0⟩ ∧
    (updateConfigForDefault "5" "abc" JSVal.undef).toEnd = JSVal.nan ∧
    (updateConfigForDefault "5" "abc" JSVal.undef).toEnd ≠ JSVal.str "abc" := by
  decide

/-- Claim C8 (amended): the numeric test is applied once, to
`data.from || sampled` with fallback to the `to` string when that is
falsy.  When the test fails (and `to` is not a boolean literal) no
numeric parse is attempted: truthy endpoint values are installed in string
form, falsy ones pass through unchanged, and no NaN is introduced by a
failed parse; when the test succeeds both endpoints are `parseFloat`'d,
so a non-numeric `to` becomes NaN. -/
theorem animStringFallback (dataFrom dataTo : String) (sampled : JSVal)
    (hNum : toNumber (jsOr (jsOr (JSVal.str dataFrom) sampled) (JSVal.str dataTo)) = none)
    (hT : dataTo ≠ "true") (hF : dataTo ≠ "false") :
    (updateConfigForDefault dataFrom dataTo sampled).isBoolean = false ∧
    (updateConfigForDefault dataFrom dataTo sampled).toEnd = JSVal.str dataTo ∧
    (updateConfigForDefault dataFrom dataTo sampled).fromEnd =
      (if truthy (jsOr (JSVal.str dataFrom) sampled) then
          JSVal.str (jsStringOf (jsOr (JSVal.str dataFrom) sampled))
        else jsOr (JSVal.str dataFrom) sampled) ∧
    (jsOr (JSVal.str dataFrom) sampled ≠ JSVal.nan →
      (updateConfigForDefault dataFrom dataTo sampled).fromEnd ≠ JSVal.nan) ∧
    (updateConfigForDefault dataFrom dataTo sampled).toEnd ≠ JSVal.nan := by
  have hto1 : (if truthy (JSVal.str dataTo) then JSVal.str (jsStringOf (JSVal.str dataTo))
      else JSVal.str dataTo) = JSVal.str dataTo := by
    simp [jsStringOf]
  have hb : (JSVal.str dataTo == JSVal.str "true" || JSVal.str dataTo == JSVal.str "false")
      = false := by
    simp [hT, hF]
  refine ⟨?_, ?_, ?_, ?_, ?_⟩ <;>
    (simp only [updateConfigForDefault]; rw [hNum]) <;>
    simp only [Option.isSome_none, Bool.false_eq_true, if_false, hto1, hb] <;>
    simp [hT, hF]
  · intro hnan
    split
    · simp
    · exact hnan

/-- Claim C8 witness: `from` empty with an `undefined` sampled value and
`to: abc` installs the string "abc" as the `to` endpoint, keeps the falsy
from value unchanged, and sets no boolean flag. -/
theorem animStringFallbackWitness :
    (updateConfigForDefault "" "abc" JSVal.undef).toEnd = JSVal.str "abc" ∧
    (updateConfigForDefault "" "abc" JSVal.undef).isBoolean = false ∧
    (updateConfigForDefault "" "abc" JSVal.undef).toEnd ≠ JSVal.nan := by
  have h := animStringFallback "" "abc" JSVal.undef (by decide) (by decide) (by decide)
  exact ⟨h.2.1, h.1, h.2.2.2.2⟩

/-! ## C9: rotation animates through radians -/

/-- Claim C9: for a vector-routed configuration targeting `rotation`, both the
`from` endpoint (the parsed `data.from` when present, otherwise the live
sample) and the `to` endpoint are converted componentwise from degrees to
radians before the interpolation config is populated, the optimized
object3D updater is installed, and one step of that updater writes the
interpolated radian-scale value unchanged (no conversion back to
degrees). -/
theorem animRotationRadians (dataFrom : Option (Vec3 ℝ))
    (sampled parsedTo lastValue value : Vec3 ℝ) (hne : value ≠ lastValue) :
    (updateConfigForVector Real.pi "rotation" dataFrom sampled parsedTo).fromEnd
      = toRadians Real.pi (dataFrom.getD sampled) ∧
    (updateConfigForVector Real.pi "rotation" dataFrom sampled parsedTo).toEnd
      = toRadians Real.pi parsedTo ∧
    (updateConfigForVector Real.pi "rotation" dataFrom sampled parsedTo).objectWrite
      = true ∧
    (vectorUpdateStep lastValue value).1 = some value := by
  refine ⟨?_, ?_, ?_, ?_⟩
  · cases dataFrom <;> simp [updateConfigForVector, Option.getD]
  · simp [updateConfigForVector]
  · simp [updateConfigForVector]
  · simp [vectorUpdateStep, hne]

/-- Claim C9 witness: animating `rotation` from `0 0 0` to `180 0 0` configures
the `to` endpoint as the radian vector `(π, 0, 0)` — the degree component
180 becomes π — and the updater writes the radian-scale value through
unchanged. -/
theorem animRotationRadiansWitness :
    (updateConfigForVector Real.pi "rotation" none (Vec3.mk 0 0 0)
        (Vec3.mk 180 0 0)).toEnd = toRadians Real.pi (Vec3.mk 180 0 0) ∧
    toRadians Real.pi (Vec3.mk (180 : ℝ) 0 0) = Vec3.mk Real.pi 0 0 ∧
    (vectorUpdateStep (Vec3.mk (0 : ℝ) 0 0) (Vec3.mk Real.pi 0 0)).1
      = some (Vec3.mk Real.pi 0 0) := by
  have hne : Vec3.mk Real.pi 0 0 ≠ Vec3.mk (0 : ℝ) 0 0 := by
    simp [Vec3.mk.injEq, Real.pi_ne_zero]
  have h := animRotationRadians none (Vec3.mk 0 0 0) (Vec3.mk 180 0 0)
    (Vec3.mk 0 0 0) (Vec3.mk Real.pi 0 0) hne
  refine ⟨h.2.1, ?_, h.2.2.2⟩
  simp only [toRadians, degToRad, Vec3.mk.injEq]
  refine ⟨?_, ?_, ?_⟩ <;> ring

/-! ## C2: pause/resume toggle the running flag only -/

/-- Claim C2: `pauseAnimation` and `resumeAnimation` each modify only the
running flag — elapsed time, the interpolation handle and all other
instance state are unchanged — so a pause followed by a resume and a tick
continues per-frame advancement from the previously accumulated simulated
time rather than from zero. -/
theorem animPauseResumeFlagOnly (c : Component) (a : Anime) (dt : Nat)
    (h : c.st.animation = some a) :
    pauseAnimation c = { c with st := { c.st with animationIsPlaying := false } } ∧
    resumeAnimation c = { c with st := { c.st with animationIsPlaying := true } } ∧
    (pauseAnimation c).st.time = c.st.time ∧
    (pauseAnimation c).st.animation = c.st.animation ∧
    tick (resumeAnimation (pauseAnimation c)) dt =
      .ok { c with st := { c.st with animationIsPlaying := true,
                                     time := c.st.time + dt,
                                     animation := some { a with currentTime := c.st.time + dt } } } := by
  refine ⟨rfl, rfl, rfl, rfl, ?_⟩
  simp [pauseAnimation, resumeAnimation, tick, h]

/-- Claim C2 witness: a concrete mid-animation instance, paused then resumed,
ticks on from the accumulated 300ms rather than from zero. -/
theorem animPauseResumeFlagOnlyWitness :
    tick (resumeAnimation (pauseAnimation
        { attrName := "animation", compName := "animation",
          data := schemaDefaults,
          st := { time := 300, animation := some { cfg := none, currentTime := 300 },
                  animationIsPlaying := true, paused := false,
                  pausedWasPlaying := false, config := none,
                  listenersAttached := true } })) 16 =
      .ok { attrName := "animation", compName := "animation",
            data := schemaDefaults,
            st := { time := 316, animation := some { cfg := none, currentTime := 316 },
                    animationIsPlaying := true, paused := false,
                    pausedWasPlaying := false, config := none,
                    listenersAttached := true } } :=
  (animPauseResumeFlagOnly
    { attrName := "animation", compName := "animation", data := schemaDefaults,
      st := { time := 300, animation := some { cfg := none, currentTime := 300 },
              animationIsPlaying := true, paused := false, pausedWasPlaying := false,
              config := none, listenersAttached := true } }
    { cfg := none, currentTime := 300 } 16 rfl).2.2.2.2

/-! ## C4: update routing -/

/-- Claim C4: on an update with a non-empty property, a fresh interpolation
object is built from the new base config and listeners are re-attached;
the instance then stays idle (not running, no begin emission, no timer)
when autoplay is off or start events are declared, arms the one-shot
delayed begin when a positive delay is configured, and otherwise begins
immediately. -/
theorem animUpdateRouting (c : Component) (d : AnimData) (hprop : d.property ≠ "") :
    (update c d).1.st.animation = some { cfg := some (baseConfigOf d), currentTime := 0 } ∧
    (update c d).1.st.listenersAttached = true ∧
    (update c d).1.data = d ∧
    ((d.autoplay = false ∨ d.startEvents ≠ []) →
       (update c d).1.st.animationIsPlaying = false ∧ (update c d).2 = []) ∧
    ((d.autoplay = true ∧ d.startEvents = [] ∧ d.delay ≠ 0) →
       (update c d).1.st.animationIsPlaying = false ∧
       (update c d).2 = [Action.armTimeout d.delay]) ∧
    ((d.autoplay = true ∧ d.startEvents = [] ∧ d.delay = 0) →
       (update c d).1.st.animationIsPlaying = true ∧
       (update c d).1.st.time = 0 ∧
       (update c d).2 = [Action.emit "animationbegin" c.attrName]) := by
  cases hA : d.autoplay <;> rcases hS : d.startEvents with _ | ⟨e, es⟩ <;>
    cases hD : d.delay <;>
      simp_all [update, createAndStartAnimation, beginAnimation, hprop]

/-- Claim C4 witness: an autoplay configuration without start events or delay
begins immediately on update, emitting `animationbegin`. -/
theorem animUpdateRoutingWitness :
    (update (initComponent "animation__w" "animation"
        { schemaDefaults with property := "material.opacity" })
        { schemaDefaults with property := "material.opacity" }).1.st.animationIsPlaying
      = true ∧
    (update (initComponent "animation__w" "animation"
        { schemaDefaults with property := "material.opacity" })
        { schemaDefaults with property := "material.opacity" }).2
      = [Action.emit "animationbegin" "animation__w"] := by
  have h := (animUpdateRouting
    (initComponent "animation__w" "animation"
      { schemaDefaults with property := "material.opacity" })
    { schemaDefaults with property := "material.opacity" }
    (by decide)).2.2.2.2.2 ⟨rfl, rfl, rfl⟩
  exact ⟨h.1, h.2.2⟩

/-! ## Entity-level begin: helper lemmas -/

/-- Pointwise characterisation of `beginStep`: what each kind of component
becomes when one instance begins on the entity. -/
theorem beginStep_spec {a p : String} {c c' : Component}
    (h : beginStep a p c = some c') :
    c'.attrName = c.attrName ∧ c'.compName = c.compName ∧ c'.data = c.data ∧
    c'.st.listenersAttached = c.st.listenersAttached ∧
    c'.st.paused = c.st.paused ∧
    c'.st.pausedWasPlaying = c.st.pausedWasPlaying ∧
    c'.st.config = c.st.config ∧
    (c.attrName = a →
       c'.st.animationIsPlaying = true ∧ c'.st.time = 0 ∧
       ∀ an, c.st.animation = some an →
         c'.st.animation = some { an with currentTime := 0 }) ∧
    (c.attrName ≠ a → c.compName = "animation" → c.data.property = p →
       c'.st.animationIsPlaying = false ∧ c'.st.time = c.st.time ∧
       c'.st.animation = c.st.animation) ∧
    (c.attrName ≠ a → (c.compName ≠ "animation" ∨ c.data.property ≠ p) →
       c' = c) := by
  unfold beginStep at h
  by_cases h1 : c.attrName = a
  · rw [if_pos h1] at h
    cases han : c.st.animation with
    | none => rw [han] at h; cases h
    | some an =>
      rw [han] at h
      injection h with h
      subst h
      refine ⟨rfl, rfl, rfl, rfl, rfl, rfl, rfl, ?_, ?_, ?_⟩
      · intro _
        refine ⟨rfl, rfl, ?_⟩
        intro an2 han2
        have e : an = an2 := Option.some.inj han2
        subst e
        rfl
      · intro hne _ _
        exact absurd h1 hne
      · intro hne _
        exact absurd h1 hne
  · rw [if_neg h1] at h
    by_cases h2 : c.compName ≠ "animation"
    · rw [if_pos h2] at h
      injection h with h
      subst h
      refine ⟨rfl, rfl, rfl, rfl, rfl, rfl, rfl, ?_, ?_, ?_⟩
      · intro he
        exact absurd he h1
      · intro _ hcn _
        exact absurd hcn h2
      · intro _ _
        rfl
    · rw [if_neg h2] at h
      by_cases h3 : c.data.property ≠ p
      · rw [if_pos h3] at h
        injection h with h
        subst h
        refine ⟨rfl, rfl, rfl, rfl, rfl, rfl, rfl, ?_, ?_, ?_⟩
        · intro he
          exact absurd he h1
        · intro _ _ hp
          exact absurd hp h3
        · intro _ _
          rfl
      · rw [if_neg h3] at h
        injection h with h
        subst h
        refine ⟨rfl, rfl, rfl, rfl, rfl, rfl, rfl, ?_, ?_, ?_⟩
        · intro he
          exact absurd he h1
        · intro _ _ _
          exact ⟨rfl, rfl, rfl⟩
        · intro _ hdis
          rcases hdis with hcn | hp
          · exact absurd hcn h2
          · exact absurd hp h3

/-- A successful `beginList` run relates input and output components
pointwise by `beginStep`. -/
theorem beginList_forall2 {a p : String} :
    ∀ {l out : List Component}, beginList a p l = some out →
      List.Forall₂ (fun c c' => beginStep a p c = some c') l out := by
  intro l
  induction l with
  | nil =>
    intro out h
    rw [beginList] at h
    injection h with h
    subst h
    exact List.Forall₂.nil
  | cons c rest ih =>
    intro out h
    rw [beginList] at h
    cases hc : beginStep a p c with
    | none => rw [hc] at h; cases h
    | some c1 =>
      cases hr : beginList a p rest with
      | none => rw [hc, hr] at h; cases h
      | some rest1 =>
        rw [hc, hr] at h
        injection h with h
        subst h
        exact List.Forall₂.cons hc (ih hr)

/-! ## C1: last start wins -/

/-- Claim C1: when an instance begins on an entity, every other animation
instance declaring the same target property path has its running flag set
to false while its listener state is untouched, and the beginning
instance's running flag is true afterwards — so at most one instance per
declared property path is advancing. -/
theorem animLastStartWins (self : Component) (comps out : List Component)
    (acts : List Action) (h : beginOnEntity self comps = some (out, acts)) :
    List.Forall₂ (fun c c' =>
      c'.st.listenersAttached = c.st.listenersAttached ∧
      (c.attrName = self.attrName → c'.st.animationIsPlaying = true) ∧
      (c.attrName ≠ self.attrName → c.compName = "animation" →
         c.data.property = self.data.property →
         c'.st.animationIsPlaying = false)) comps out := by
  obtain ⟨l, hb, hf⟩ := Option.map_eq_some'.mp h
  have h1 : l = out := congrArg Prod.fst hf
  subst h1
  refine (beginList_forall2 hb).imp ?_
  intro c c' hstep
  obtain ⟨_, _, _, hlis, _, _, _, hself, hsib, _⟩ := beginStep_spec hstep
  exact ⟨hlis, fun he => (hself he).1, fun hne hcn hp => (hsib hne hcn hp).1⟩

/-! ## C5: effects of begin -/

/-- Claim C5: a begin invocation zeroes the accumulated time, seeks the
interpolation object to time zero, sets the running flag, stops
same-property sibling animation instances (leaving everything else on the
entity untouched), and emits `animationbegin` carrying the configuration's
attribute name. -/
theorem animBeginEffects (self : Component) (comps out : List Component)
    (acts : List Action) (h : beginOnEntity self comps = some (out, acts)) :
    acts = [Action.emit "animationbegin" self.attrName] ∧
    List.Forall₂ (fun c c' =>
      c'.data = c.data ∧
      c'.st.listenersAttached = c.st.listenersAttached ∧
      (c.attrName = self.attrName →
         c'.st.time = 0 ∧ c'.st.animationIsPlaying = true ∧
         ∀ an, c.st.animation = some an →
           c'.st.animation = some { an with currentTime := 0 }) ∧
      (c.attrName ≠ self.attrName → c.compName = "animation" →
         c.data.property = self.data.property →
         c'.st.animationIsPlaying = false ∧ c'.st.time = c.st.time ∧
         c'.st.animation = c.st.animation) ∧
      (c.attrName ≠ self.attrName →
         (c.compName ≠ "animation" ∨ c.data.property ≠ self.data.property) →
         c' = c)) comps out := by
  obtain ⟨l, hb, hf⟩ := Option.map_eq_some'.mp h
  have h1 : l = out := congrArg Prod.fst hf
  have h2 : [Action.emit "animationbegin" self.attrName] = acts :=
    congrArg Prod.snd hf
  subst h1
  refine ⟨h2.symm, (beginList_forall2 hb).imp ?_⟩
  intro c c' hstep
  obtain ⟨_, _, hdat, hlis, _, _, _, hself, hsib, hother⟩ := beginStep_spec hstep
  exact ⟨hdat, hlis,
    fun he => ⟨(hself he).2.1, (hself he).1, (hself he).2.2⟩,
    hsib, hother⟩

/-- A `material.opacity` animation configuration with defaults. -/
def opacityData : AnimData :=
  { schemaDefaults with property := "material.opacity" }

/-- A mouseenter-triggered opacity instance, idle, with its interpolation
object created and listeners attached. -/
def hoverComp : Component :=
  { attrName := "animation__mouseenter", compName := "animation",
    data := opacityData,
    st := { initState with
              animation := some { cfg := none, currentTime := 7 },
              listenersAttached := true } }

/-- A mouseleave-triggered opacity instance, currently running. -/
def leaveComp : Component :=
  { attrName := "animation__mouseleave", compName := "animation",
    data := opacityData,
    st := { initState with
              animation := some { cfg := none, currentTime := 5 },
              animationIsPlaying := true, listenersAttached := true } }

/-- `hoverComp` after it begins. -/
def hoverBegun : Component :=
  { hoverComp with st :=
      { hoverComp.st with
          time := 0,
          animation := some { cfg := none, currentTime := 0 },
          animationIsPlaying := true } }

/-- `leaveComp` after `hoverComp` begins: same-property sibling, forced
not running, listeners intact. -/
def leaveStopped : Component :=
  { leaveComp with st := { leaveComp.st with animationIsPlaying := false } }

/-- Claim C1 witness: two opacity instances on one entity; the mouseenter one
begins while the mouseleave one is running, leaving the former running and
the latter stopped with listeners attached. -/
theorem animLastStartWinsWitness :
    List.Forall₂ (fun c c' =>
      c'.st.listenersAttached = c.st.listenersAttached ∧
      (c.attrName = hoverComp.attrName → c'.st.animationIsPlaying = true) ∧
      (c.attrName ≠ hoverComp.attrName → c.compName = "animation" →
         c.data.property = hoverComp.data.property →
         c'.st.animationIsPlaying = false))
      [hoverComp, leaveComp] [hoverBegun, leaveStopped] :=
  animLastStartWins hoverComp [hoverComp, leaveComp] [hoverBegun, leaveStopped]
    [Action.emit "animationbegin" "animation__mouseenter"] (by decide)

/-- Claim C5 witness: beginning the mouseenter instance zeroes its clock, seeks
its interpolation object to 0, marks it running, stops the same-property
sibling and emits `animationbegin` with the attribute name. -/
theorem animBeginEffectsWitness :
    (beginOnEntity hoverComp [hoverComp, leaveComp]).map Prod.snd
      = some [Action.emit "animationbegin" "animation__mouseenter"] ∧
    List.Forall₂ (fun c c' =>
      c'.data = c.data ∧
      c'.st.listenersAttached = c.st.listenersAttached ∧
      (c.attrName = hoverComp.attrName →
         c'.st.time = 0 ∧ c'.st.animationIsPlaying = true ∧
         ∀ an, c.st.animation = some an →
           c'.st.animation = some { an with currentTime := 0 }) ∧
      (c.attrName ≠ hoverComp.attrName → c.compName = "animation" →
         c.data.property = hoverComp.data.property →
         c'.st.animationIsPlaying = false ∧ c'.st.time = c.st.time ∧
         c'.st.animation = c.st.animation) ∧
      (c.attrName ≠ hoverComp.attrName →
         (c.compName ≠ "animation" ∨ c.data.property ≠ hoverComp.data.property) →
         c' = c))
      [hoverComp, leaveComp] [hoverBegun, leaveStopped] := by
  have h := animBeginEffects hoverComp [hoverComp, leaveComp]
    [hoverBegun, leaveStopped]
    [Action.emit "animationbegin" "animation__mouseenter"] (by decide)
  exact ⟨by decide, h.2⟩

/-! ## C3, C7, C10: the scene pause/play slip -/

/-- An `autoplay: false` opacity fade configuration. -/
def fadeData : AnimData :=
  { schemaDefaults with
      property := "material.opacity", autoplay := false,
      fromVal := "0", toVal := "1" }

/-- Claim C7 evaluation at the failing input: an `autoplay: false` opacity
instance is idle after update; a scene pause followed by a scene play
nevertheless leaves it running, because `pause` stores
`pausedWasPlaying = true` unconditionally instead of recording the running
flag. -/
theorem animScenePlayResumesIdleInstance :
    (update (initComponent "animation__fade" "animation" fadeData)
        fadeData).1.st.animationIsPlaying = false ∧
    (runOps (initComponent "animation__fade" "animation" fadeData)
        [.updateOp fadeData, .scenePauseOp, .scenePlayOp]).toOption.map
        (fun c => c.st.animationIsPlaying) = some true := by
  exact ⟨rfl, rfl⟩

/-- Claim C3 evaluation at the failing input: with `property` empty no
interpolation object is ever created, but after a scene pause and play the
instance is running, and the next tick performs frame work — it advances
the clock to 16 — and then dereferences the null interpolation handle
(throws). -/
theorem animEmptyPropertyTickThrows :
    (update (initComponent "animation" "animation" schemaDefaults)
        schemaDefaults).1.st.animation = none ∧
    runOps (initComponent "animation" "animation" schemaDefaults)
        [.updateOp schemaDefaults, .scenePauseOp, .scenePlayOp, .tickOp 16]
      = .error { attrName := "animation", compName := "animation",
                 data := schemaDefaults,
                 st := { time := 16, animation := none,
                         animationIsPlaying := true, paused := false,
                         pausedWasPlaying := false, config := none,
                         listenersAttached := true } } := by
  exact ⟨rfl, rfl⟩

/-- Claim C10 evaluation at the failing input: a state with the running flag set
and a null interpolation handle is reachable through update, scene pause
and scene play alone, and the following tick throws. -/
theorem animRunningWithNullHandleReachable :
    (runOps (initComponent "animation__x" "animation" schemaDefaults)
        [.updateOp schemaDefaults, .scenePauseOp, .scenePlayOp]).toOption.map
        (fun c => (c.st.animationIsPlaying, c.st.animation))
      = some (true, none) ∧
    (runOps (initComponent "animation__x" "animation" schemaDefaults)
        [.updateOp schemaDefaults, .scenePauseOp, .scenePlayOp,
         .tickOp 1]).toOption = none := by
  exact ⟨rfl, rfl⟩

end KframeAnim
